import Mathlib

/-!
Shallow embedding of `src/app/src/main/cpp/opus_jni.cpp` (WiChat / bitchat
Opus JNI bridge).

The underlying Opus library is external to the repository and is treated as a
black box, exactly as the spec prescribes: its `opus_encode` / `opus_decode`
primitives are abstract function parameters (structure `OpusLib`), and the
documented parts of their contract (output bounded by the capacity argument,
sample counts reported per channel) are stated as explicit predicates
(`WellBehavedEnc`, `WellBehavedDec`) used as hypotheses where a claim needs
them.  Creation and destruction (`opus_encoder_create`, `opus_decoder_create`,
`opus_encoder_destroy`, `opus_decoder_destroy`) allocate and free heap objects
whose addresses become the JNI tokens; the C allocator is embedded as
`CodecHeap` (fresh nonzero addresses, distinct while live).

Ghost instrumentation (faithful to the source, line references given at each
definition): the list of calls made into the library (`calls`), the number of
scratch-buffer allocations and frees performed on the taken path
(`scratchAllocd` / `scratchFreed`), the number of int16 slots the library
writes into the decode scratch buffer (`scratchWritten`), and the mode passed
to `ReleaseByteArrayElements` (`releaseMode`).
-/

set_option maxRecDepth 4000

/-- `OPUS_OK` from `opus_defines.h`. -/
def OPUS_OK : Int := 0

/-- `OPUS_SIGNAL_VOICE` from `opus_defines.h` (value 3001). -/
def OPUS_SIGNAL_VOICE : Int := 3001

/-- The JNI `JNI_ABORT` release mode (value 2): free the native copy of the
array elements without copying them back to the Java array. -/
def JNI_ABORT : Int := 2

/-- `max_encoded_size` in `nativeEncode` (opus_jni.cpp line 104): size in
bytes of the encode output scratch buffer. -/
def max_encoded_size : Nat := 1024

/-- `max_frame_size` in `nativeDecode` (opus_jni.cpp line 151): size in int16
slots of the decode output scratch buffer. -/
def max_frame_size : Nat := 1024

/-- Reassemble two bytes (native little-endian, as on Android) into a signed
16-bit sample, embedding the `reinterpret_cast<int16_t*>` of line 100. -/
def toInt16 (lo hi : Nat) : Int :=
  let u : Nat := lo % 256 + 256 * (hi % 256)
  if u < 32768 then (u : Int) else (u : Int) - 65536

/-- The byte buffer viewed as a sequence of signed 16-bit samples
(opus_jni.cpp lines 100-101: `reinterpret_cast<int16_t*>` with
`pcm_samples = pcm_length / 2`; a trailing odd byte is not part of any
sample). -/
def bytesToShorts : List Nat → List Int
  | lo :: hi :: rest => toInt16 lo hi :: bytesToShorts rest
  | _ => []

/-- One signed 16-bit sample written back as two bytes (native little-endian),
embedding the `reinterpret_cast<jbyte*>(pcm_data)` of line 176. -/
def int16ToBytes (v : Int) : List Nat :=
  let u : Nat := (v % 65536).toNat
  [u % 256, u / 256]

/-- A sample buffer written back as a byte sequence, 2 bytes per sample. -/
def shortsToBytes : List Int → List Nat
  | [] => []
  | v :: rest => int16ToBytes v ++ shortsToBytes rest

/-- Reading the first `n` cells of a scratch buffer into which the library
wrote the list `w` starting at offset 0: cells beyond the written region are
the (indeterminate) original heap contents, modelled as `dflt`.  This embeds
`SetByteArrayRegion(result, 0, n, buffer)`: the constructed array always has
exactly `n` cells. -/
def bufferRead {α : Type} (dflt : α) (w : List α) (n : Nat) : List α :=
  w.take n ++ List.replicate (n - w.length) dflt

/-- The abstract underlying codec library: `encode` maps (handle, pcm samples,
frame size, max output bytes) to (status, bytes written into the output
buffer); `decode` maps (handle, packet bytes, frame-size bound, fec flag) to
(status = sample count per channel, int16 slots written into the output
buffer).  Both are black boxes, per the spec. -/
structure OpusLib where
  encode : Int → List Int → Int → Nat → Int × List Nat
  decode : Int → List Nat → Int → Int → Int × List Int

/-- The documented contract of `opus_encode`: on success the returned byte
count does not exceed the `max_data_bytes` capacity argument, and exactly that
many bytes were written into the output buffer. -/
def WellBehavedEnc (lib : OpusLib) : Prop :=
  ∀ h pcm fs mb, 0 ≤ (lib.encode h pcm fs mb).1 →
    (lib.encode h pcm fs mb).1.toNat ≤ mb ∧
    (lib.encode h pcm fs mb).2.length = (lib.encode h pcm fs mb).1.toNat

/-- The documented contract of `opus_decode` for a decoder with `ch` channels:
on success the returned count is a number of samples per channel, bounded by
the `frame_size` capacity argument, and the library writes exactly
`count × ch` int16 slots (interleaved channels) into the output buffer. -/
def WellBehavedDec (ch : Nat) (lib : OpusLib) : Prop :=
  ∀ h d fs fec, 0 ≤ (lib.decode h d fs fec).1 →
    (lib.decode h d fs fec).1 ≤ fs ∧
    (lib.decode h d fs fec).2.length = (lib.decode h d fs fec).1.toNat * ch

/-- A call made into the underlying library, with the exact arguments
forwarded by this layer. -/
inductive LibCall where
  | encodeCall (handle : Int) (pcm : List Int) (frameSize : Int) (maxBytes : Nat)
  | decodeCall (handle : Int) (data : List Nat) (frameSize : Int) (fec : Int)
  | destroyEncoderCall (handle : Int)
  | destroyDecoderCall (handle : Int)
deriving DecidableEq

/-- `ReleaseByteArrayElements(array, elems, mode)`: the Java array after the
call holds the native copy `buffer` if the mode commits it back, and keeps its
`original` contents if the mode is `JNI_ABORT`. -/
def releaseByteArrayElements (original buffer : List Nat) (mode : Int) : List Nat :=
  if mode = JNI_ABORT then original else buffer

/-- Observable outcome of one `nativeEncode` call. -/
structure EncodeOut where
  result : Option (List Nat)
  calls : List LibCall
  inputAfter : List Nat
  releaseMode : Option Int
  scratchAllocd : Nat
  scratchFreed : Nat
deriving DecidableEq

/-- Observable outcome of one `nativeDecode` call.  `scratchWritten` counts
the int16 slots the library wrote into the 1024-slot scratch buffer. -/
structure DecodeOut where
  result : Option (List Nat)
  calls : List LibCall
  inputAfter : List Nat
  releaseMode : Option Int
  scratchAllocd : Nat
  scratchFreed : Nat
  scratchWritten : Nat
deriving DecidableEq

/-- `Java_com_bitchat_android_audio_OpusCodec_nativeEncode`
(opus_jni.cpp lines 84-130).  Paths: line 88 sentinel check (no library call,
no scratch allocation); line 105 scratch allocation; line 108 library encode
call with the constant bound `max_encoded_size`; line 111 release of the input
array with `JNI_ABORT` (the native copy was only read); lines 113-117 failure
path (scratch freed, `nullptr` returned); lines 123-127 success path (exactly
`encoded_bytes` bytes copied out, scratch freed). -/
def Java_com_bitchat_android_audio_OpusCodec_nativeEncode
    (lib : OpusLib) (encoder_handle : Int) (pcm_data : List Nat)
    (frame_size : Int) : EncodeOut :=
  if encoder_handle = 0 then
    ⟨none, [], pcm_data, none, 0, 0⟩
  else
    let pcm_bytes := pcm_data
    let pcm_shorts := bytesToShorts pcm_bytes
    let r := lib.encode encoder_handle pcm_shorts frame_size max_encoded_size
    let encoded_bytes := r.1
    let input_after := releaseByteArrayElements pcm_data pcm_bytes JNI_ABORT
    let call := LibCall.encodeCall encoder_handle pcm_shorts frame_size max_encoded_size
    if encoded_bytes < 0 then
      ⟨none, [call], input_after, some JNI_ABORT, 1, 1⟩
    else
      ⟨some (bufferRead 0 r.2 encoded_bytes.toNat), [call], input_after,
        some JNI_ABORT, 1, 1⟩

/-- `Java_com_bitchat_android_audio_OpusCodec_nativeDecode`
(opus_jni.cpp lines 135-182).  Paths: line 139 sentinel check; line 152
scratch allocation (`max_frame_size` int16 slots); lines 155-160 library
decode call bounded by the CALLER frame size (not the scratch capacity), fec
flag fixed to 0; line 163 release of the input array with `JNI_ABORT`;
lines 165-169 failure path; lines 174-179 success path (`decoded_samples * 2`
bytes copied out). -/
def Java_com_bitchat_android_audio_OpusCodec_nativeDecode
    (lib : OpusLib) (decoder_handle : Int) (opus_data : List Nat)
    (frame_size : Int) : DecodeOut :=
  if decoder_handle = 0 then
    ⟨none, [], opus_data, none, 0, 0, 0⟩
  else
    let opus_bytes := opus_data
    let r := lib.decode decoder_handle opus_bytes frame_size 0
    let decoded_samples := r.1
    let input_after := releaseByteArrayElements opus_data opus_bytes JNI_ABORT
    let call := LibCall.decodeCall decoder_handle opus_bytes frame_size 0
    if decoded_samples < 0 then
      ⟨none, [call], input_after, some JNI_ABORT, 1, 1, r.2.length⟩
    else
      ⟨some (shortsToBytes (bufferRead 0 r.2 decoded_samples.toNat)), [call],
        input_after, some JNI_ABORT, 1, 1, r.2.length⟩

/-- The C heap from which `opus_encoder_create` / `opus_decoder_create`
allocate: `next` is the next fresh address, `live` the addresses currently
allocated.  Freshly allocated addresses are nonzero and distinct from every
live address. -/
structure CodecHeap where
  next : Int
  live : List Int
deriving DecidableEq

/-- Heap well-formedness: addresses are positive and `next` is above every
live address, so allocation always yields a fresh, nonzero address. -/
def heapWF (h : CodecHeap) : Prop :=
  0 < h.next ∧ (∀ p ∈ h.live, p < h.next) ∧ h.live.Nodup

/-- Allocate a fresh object, returning its (nonzero, fresh) address. -/
def heapAlloc (h : CodecHeap) : Int × CodecHeap :=
  (h.next, ⟨h.next + 1, h.next :: h.live⟩)

/-- Free the object at address `p`. -/
def heapFree (h : CodecHeap) (p : Int) : CodecHeap :=
  ⟨h.next, h.live.erase p⟩

/-- One `opus_encoder_ctl` configuration request, with its argument. -/
inductive CtlReq where
  | setBitrate (v : Int)
  | setComplexity (v : Int)
  | setVbr (v : Int)
  | setDtx (v : Int)
  | setSignal (v : Int)
  | setLsbDepth (v : Int)
deriving DecidableEq

/-- The creation side of the library, abstract: for given parameters,
`encCreate` / `decCreate` report the error code the library sets and whether
it hands back an instance (it allocates from the heap when it does). -/
structure OpusCreate where
  encCreate : Int → Int → Int → Int × Bool
  decCreate : Int → Int → Int × Bool

/-- `Java_com_bitchat_android_audio_OpusCodec_nativeInitEncoder`
(opus_jni.cpp lines 19-55).  Line 37 creation; line 38 check
`error != OPUS_OK || encoder == nullptr` returning the sentinel 0; lines 44-51
the six ctl requests applied on success, in source order; line 54 the encoder
address returned as the token. -/
def Java_com_bitchat_android_audio_OpusCodec_nativeInitEncoder
    (L : OpusCreate) (h : CodecHeap) (sample_rate channels application : Int)
    (bitrate complexity : Int) (vbr dtx : Bool) :
    Int × List CtlReq × CodecHeap :=
  let c := L.encCreate sample_rate channels application
  if c.1 ≠ OPUS_OK ∨ c.2 = false then
    (0, [], h)
  else
    let a := heapAlloc h
    (a.1,
      [CtlReq.setBitrate bitrate, CtlReq.setComplexity complexity,
       CtlReq.setVbr (if vbr then 1 else 0), CtlReq.setDtx (if dtx then 1 else 0),
       CtlReq.setSignal OPUS_SIGNAL_VOICE, CtlReq.setLsbDepth 16],
      a.2)

/-- `Java_com_bitchat_android_audio_OpusCodec_nativeInitDecoder`
(opus_jni.cpp lines 60-79).  Line 71 creation; line 72 the same sentinel
check; no ctl requests; line 78 the decoder address returned as the token. -/
def Java_com_bitchat_android_audio_OpusCodec_nativeInitDecoder
    (L : OpusCreate) (h : CodecHeap) (sample_rate channels : Int) :
    Int × List CtlReq × CodecHeap :=
  let c := L.decCreate sample_rate channels
  if c.1 ≠ OPUS_OK ∨ c.2 = false then
    (0, [], h)
  else
    let a := heapAlloc h
    (a.1, [], a.2)

/-- `Java_com_bitchat_android_audio_OpusCodec_nativeReleaseEncoder`
(opus_jni.cpp lines 197-204): if the token is nonzero, destroy the encoder
(one library call, instance freed); otherwise do nothing. -/
def Java_com_bitchat_android_audio_OpusCodec_nativeReleaseEncoder
    (h : CodecHeap) (encoder_handle : Int) : CodecHeap × List LibCall :=
  if encoder_handle ≠ 0 then
    (heapFree h encoder_handle, [LibCall.destroyEncoderCall encoder_handle])
  else
    (h, [])

/-- `Java_com_bitchat_android_audio_OpusCodec_nativeReleaseDecoder`
(opus_jni.cpp lines 209-216): same shape as the encoder release. -/
def Java_com_bitchat_android_audio_OpusCodec_nativeReleaseDecoder
    (h : CodecHeap) (decoder_handle : Int) : CodecHeap × List LibCall :=
  if decoder_handle ≠ 0 then
    (heapFree h decoder_handle, [LibCall.destroyDecoderCall decoder_handle])
  else
    (h, [])

/-- A concrete mono library instance obeying the documented contract: encode
always produces a 10-byte packet; decode fills exactly the requested frame
size (one channel, so one int16 slot per reported sample). -/
def libMono : OpusLib where
  encode := fun _ _ _ _ => (10, List.replicate 10 7)
  decode := fun _ _ fs _ => if fs < 0 then (-1, []) else (fs, List.replicate fs.toNat 0)

/-- A concrete stereo library instance obeying the documented contract: decode
reports `fs` samples per channel and writes `fs * 2` interleaved int16
slots. -/
def libStereo : OpusLib where
  encode := fun _ _ _ _ => (10, List.replicate 10 7)
  decode := fun _ _ fs _ => if fs < 0 then (-1, []) else (fs, List.replicate (fs.toNat * 2) 0)

/-- A concrete library instance whose transforms always fail with a negative
diagnostic code. -/
def libReject : OpusLib where
  encode := fun _ _ _ _ => (-3, [])
  decode := fun _ _ _ _ => (-3, [])

/-- A concrete creation model: parameters with sample rate 48000 are accepted,
anything else is rejected with a negative error code and no instance. -/
def createAt48k : OpusCreate where
  encCreate := fun sr _ _ => if sr = 48000 then (0, true) else (-1, false)
  decCreate := fun sr _ => if sr = 48000 then (0, true) else (-1, false)

/-- An empty well-formed heap. -/
def heap0 : CodecHeap := ⟨1, []⟩

/-- A heap with two live sessions. -/
def heap1 : CodecHeap := ⟨8, [5, 7]⟩

theorem shortsToBytes_length (l : List Int) :
    (shortsToBytes l).length = 2 * l.length := by
  induction l with
  | nil => rfl
  | cons v rest ih =>
    simp [shortsToBytes, int16ToBytes, ih]
    omega

theorem bufferRead_length {α : Type} (d : α) (w : List α) (n : Nat) :
    (bufferRead d w n).length = n := by
  simp [bufferRead]
  omega

/-- C2: encode and decode called with the sentinel token 0 return an absent
result and make zero calls into the underlying library. -/
theorem C2_zero_token_short_circuit (lib : OpusLib) (pcm opus : List Nat)
    (fsE fsD : Int) :
    (Java_com_bitchat_android_audio_OpusCodec_nativeEncode lib 0 pcm fsE).result = none ∧
    (Java_com_bitchat_android_audio_OpusCodec_nativeEncode lib 0 pcm fsE).calls = [] ∧
    (Java_com_bitchat_android_audio_OpusCodec_nativeDecode lib 0 opus fsD).result = none ∧
    (Java_com_bitchat_android_audio_OpusCodec_nativeDecode lib 0 opus fsD).calls = [] := by
  refine ⟨rfl, rfl, rfl, rfl⟩

/-- C4: on every path of encode and decode (sentinel rejection, library
failure, success) the number of scratch-buffer allocations performed equals
the number of frees performed, so no call leaks its scratch allocation. -/
theorem C4_scratch_balanced (lib : OpusLib) (tokE tokD : Int)
    (pcm opus : List Nat) (fsE fsD : Int) :
    (Java_com_bitchat_android_audio_OpusCodec_nativeEncode lib tokE pcm fsE).scratchAllocd =
      (Java_com_bitchat_android_audio_OpusCodec_nativeEncode lib tokE pcm fsE).scratchFreed ∧
    (Java_com_bitchat_android_audio_OpusCodec_nativeDecode lib tokD opus fsD).scratchAllocd =
      (Java_com_bitchat_android_audio_OpusCodec_nativeDecode lib tokD opus fsD).scratchFreed := by
  constructor
  · unfold Java_com_bitchat_android_audio_OpusCodec_nativeEncode
    split
    · rfl
    · dsimp only
      split <;> rfl
  · unfold Java_com_bitchat_android_audio_OpusCodec_nativeDecode
    split
    · rfl
    · dsimp only
      split <;> rfl

/-- C10: on every exit path of encode and decode the caller input array is
unchanged, and whenever the native copy is released (every path past the
sentinel check) the release mode is `JNI_ABORT`, which discards modifications
instead of copying them back. -/
theorem C10_input_preserved (lib : OpusLib) (tokE tokD : Int)
    (pcm opus : List Nat) (fsE fsD : Int) :
    (Java_com_bitchat_android_audio_OpusCodec_nativeEncode lib tokE pcm fsE).inputAfter = pcm ∧
    (Java_com_bitchat_android_audio_OpusCodec_nativeDecode lib tokD opus fsD).inputAfter = opus ∧
    (tokE ≠ 0 →
      (Java_com_bitchat_android_audio_OpusCodec_nativeEncode lib tokE pcm fsE).releaseMode =
        some JNI_ABORT) ∧
    (tokD ≠ 0 →
      (Java_com_bitchat_android_audio_OpusCodec_nativeDecode lib tokD opus fsD).releaseMode =
        some JNI_ABORT) := by
  refine ⟨?_, ?_, ?_, ?_⟩
  · unfold Java_com_bitchat_android_audio_OpusCodec_nativeEncode
    split
    · rfl
    · dsimp only
      split <;> simp [releaseByteArrayElements]
  · unfold Java_com_bitchat_android_audio_OpusCodec_nativeDecode
    split
    · rfl
    · dsimp only
      split <;> simp [releaseByteArrayElements]
  · intro h
    unfold Java_com_bitchat_android_audio_OpusCodec_nativeEncode
    rw [if_neg h]
    dsimp only
    split <;> rfl
  · intro h
    unfold Java_com_bitchat_android_audio_OpusCodec_nativeDecode
    rw [if_neg h]
    dsimp only
    split <;> rfl

/-- C10 witness: at token 5, both operations leave the input unchanged and
release it with `JNI_ABORT`. -/
theorem C10_input_preserved_witness :
    (Java_com_bitchat_android_audio_OpusCodec_nativeEncode libMono 5 [1, 2] 1).inputAfter = [1, 2] ∧
    (Java_com_bitchat_android_audio_OpusCodec_nativeDecode libMono 5 [9] 1).inputAfter = [9] ∧
    ((5 : Int) ≠ 0 →
      (Java_com_bitchat_android_audio_OpusCodec_nativeEncode libMono 5 [1, 2] 1).releaseMode =
        some JNI_ABORT) ∧
    ((5 : Int) ≠ 0 →
      (Java_com_bitchat_android_audio_OpusCodec_nativeDecode libMono 5 [9] 1).releaseMode =
        some JNI_ABORT) :=
  C10_input_preserved libMono 5 5 [1, 2] [9] 1 1

/-- C8: for every nonzero token, encode and decode each make exactly one
library call, forwarding the token, the (reinterpreted) input of whatever
length it has, and the caller frame size unmodified; encode passes the
constant capacity `max_encoded_size`, decode passes fec flag 0.  No registry
lookup and no input-length check occurs. -/
theorem C8_only_sentinel_check (lib : OpusLib) (tok : Int)
    (pcm opus : List Nat) (fsE fsD : Int) (h : tok ≠ 0) :
    (Java_com_bitchat_android_audio_OpusCodec_nativeEncode lib tok pcm fsE).calls =
      [LibCall.encodeCall tok (bytesToShorts pcm) fsE max_encoded_size] ∧
    (Java_com_bitchat_android_audio_OpusCodec_nativeDecode lib tok opus fsD).calls =
      [LibCall.decodeCall tok opus fsD 0] := by
  constructor
  · unfold Java_com_bitchat_android_audio_OpusCodec_nativeEncode
    rw [if_neg h]
    dsimp only
    split <;> rfl
  · unfold Java_com_bitchat_android_audio_OpusCodec_nativeDecode
    rw [if_neg h]
    dsimp only
    split <;> rfl

/-- C8 witness: token 77 was never created and the 3-byte input is not even a
whole number of samples, let alone `frameSize x channels` of them, yet both
calls are forwarded to the library with frame size 160 unmodified. -/
theorem C8_only_sentinel_check_witness :
    (Java_com_bitchat_android_audio_OpusCodec_nativeEncode libMono 77 [1, 2, 3] 160).calls =
      [LibCall.encodeCall 77 (bytesToShorts [1, 2, 3]) 160 max_encoded_size] ∧
    (Java_com_bitchat_android_audio_OpusCodec_nativeDecode libMono 77 [1, 2, 3] 160).calls =
      [LibCall.decodeCall 77 [1, 2, 3] 160 0] :=
  C8_only_sentinel_check libMono 77 [1, 2, 3] [1, 2, 3] 160 160 (by decide)

theorem heap0_wf : heapWF heap0 := by
  refine ⟨by norm_num [heap0], ?_, ?_⟩
  · intro p hp
    simp [heap0] at hp
  · simp [heap0]

/-- C5: if the library reports a nonzero error or hands back no instance,
initEncoder and initDecoder return the sentinel token 0 (and apply no
configuration); on success, initEncoder returns a nonzero token and applies
exactly the six ctl requests of the source, in order (bitrate, complexity,
VBR, DTX, the fixed voice-signal hint, the fixed 16-bit depth hint), while
initDecoder returns a nonzero token and applies no configuration.  Both
functions are total, so no fatal error is raised on failure. -/
theorem C5_init_contract (L : OpusCreate) (h : CodecHeap)
    (sr ch app br cx : Int) (vbr dtx : Bool) (hwf : heapWF h) :
    (((L.encCreate sr ch app).1 ≠ OPUS_OK ∨ (L.encCreate sr ch app).2 = false) →
      Java_com_bitchat_android_audio_OpusCodec_nativeInitEncoder L h sr ch app br cx vbr dtx =
        (0, [], h)) ∧
    ((L.encCreate sr ch app).1 = OPUS_OK → (L.encCreate sr ch app).2 = true →
      (Java_com_bitchat_android_audio_OpusCodec_nativeInitEncoder L h sr ch app br cx vbr dtx).1 ≠ 0 ∧
      (Java_com_bitchat_android_audio_OpusCodec_nativeInitEncoder L h sr ch app br cx vbr dtx).2.1 =
        [CtlReq.setBitrate br, CtlReq.setComplexity cx,
         CtlReq.setVbr (if vbr then 1 else 0), CtlReq.setDtx (if dtx then 1 else 0),
         CtlReq.setSignal OPUS_SIGNAL_VOICE, CtlReq.setLsbDepth 16]) ∧
    (((L.decCreate sr ch).1 ≠ OPUS_OK ∨ (L.decCreate sr ch).2 = false) →
      Java_com_bitchat_android_audio_OpusCodec_nativeInitDecoder L h sr ch = (0, [], h)) ∧
    ((L.decCreate sr ch).1 = OPUS_OK → (L.decCreate sr ch).2 = true →
      (Java_com_bitchat_android_audio_OpusCodec_nativeInitDecoder L h sr ch).1 ≠ 0 ∧
      (Java_com_bitchat_android_audio_OpusCodec_nativeInitDecoder L h sr ch).2.1 = []) := by
  refine ⟨?_, ?_, ?_, ?_⟩
  · intro hc
    unfold Java_com_bitchat_android_audio_OpusCodec_nativeInitEncoder
    dsimp only
    rw [if_pos hc]
  · intro h1 h2
    unfold Java_com_bitchat_android_audio_OpusCodec_nativeInitEncoder
    dsimp only
    rw [if_neg (by simp [h1, h2])]
    exact ⟨ne_of_gt hwf.1, rfl⟩
  · intro hc
    unfold Java_com_bitchat_android_audio_OpusCodec_nativeInitDecoder
    dsimp only
    rw [if_pos hc]
  · intro h1 h2
    unfold Java_com_bitchat_android_audio_OpusCodec_nativeInitDecoder
    dsimp only
    rw [if_neg (by simp [h1, h2])]
    exact ⟨ne_of_gt hwf.1, rfl⟩

/-- C5 witness: with a creation model that accepts only sample rate 48000, a
rejected creation returns token 0 with no configuration and an accepted
encoder creation returns a nonzero token with exactly the six requests
(here with VBR off and DTX on). -/
theorem C5_init_contract_witness :
    (Java_com_bitchat_android_audio_OpusCodec_nativeInitEncoder createAt48k heap0 8000 1 2049 16000 5 false true =
      (0, [], heap0)) ∧
    ((Java_com_bitchat_android_audio_OpusCodec_nativeInitEncoder createAt48k heap0 48000 1 2049 16000 5 false true).1 ≠ 0 ∧
      (Java_com_bitchat_android_audio_OpusCodec_nativeInitEncoder createAt48k heap0 48000 1 2049 16000 5 false true).2.1 =
        [CtlReq.setBitrate 16000, CtlReq.setComplexity 5, CtlReq.setVbr 0,
         CtlReq.setDtx 1, CtlReq.setSignal OPUS_SIGNAL_VOICE, CtlReq.setLsbDepth 16]) ∧
    (Java_com_bitchat_android_audio_OpusCodec_nativeInitDecoder createAt48k heap0 8000 1 =
      (0, [], heap0)) ∧
    ((Java_com_bitchat_android_audio_OpusCodec_nativeInitDecoder createAt48k heap0 48000 1).1 ≠ 0 ∧
      (Java_com_bitchat_android_audio_OpusCodec_nativeInitDecoder createAt48k heap0 48000 1).2.1 = []) :=
  ⟨(C5_init_contract createAt48k heap0 8000 1 2049 16000 5 false true heap0_wf).1
      (Or.inl (by decide)),
   (C5_init_contract createAt48k heap0 48000 1 2049 16000 5 false true heap0_wf).2.1
      (by decide) (by decide),
   (C5_init_contract createAt48k heap0 8000 1 2049 16000 5 false true heap0_wf).2.2.1
      (Or.inl (by decide)),
   (C5_init_contract createAt48k heap0 48000 1 2049 16000 5 false true heap0_wf).2.2.2
      (by decide) (by decide)⟩

/-- C7: releasing the sentinel token 0 changes nothing and makes no library
call; releasing a nonzero token makes exactly one destroy call into the
library and frees the instance at that address (which is no longer live
afterwards, the heap being free of duplicates). -/
theorem C7_release_contract (h : CodecHeap) (tok : Int) :
    (Java_com_bitchat_android_audio_OpusCodec_nativeReleaseEncoder h 0 = (h, []) ∧
     Java_com_bitchat_android_audio_OpusCodec_nativeReleaseDecoder h 0 = (h, [])) ∧
    (tok ≠ 0 →
      Java_com_bitchat_android_audio_OpusCodec_nativeReleaseEncoder h tok =
        (heapFree h tok, [LibCall.destroyEncoderCall tok]) ∧
      Java_com_bitchat_android_audio_OpusCodec_nativeReleaseDecoder h tok =
        (heapFree h tok, [LibCall.destroyDecoderCall tok]) ∧
      (h.live.Nodup → tok ∉ (heapFree h tok).live)) := by
  constructor
  · constructor
    · unfold Java_com_bitchat_android_audio_OpusCodec_nativeReleaseEncoder
      rw [if_neg (by simp)]
    · unfold Java_com_bitchat_android_audio_OpusCodec_nativeReleaseDecoder
      rw [if_neg (by simp)]
  · intro ht
    refine ⟨?_, ?_, ?_⟩
    · unfold Java_com_bitchat_android_audio_OpusCodec_nativeReleaseEncoder
      rw [if_pos ht]
    · unfold Java_com_bitchat_android_audio_OpusCodec_nativeReleaseDecoder
      rw [if_pos ht]
    · intro hnd
      exact hnd.not_mem_erase

/-- C7 witness: on a heap with live sessions 5 and 7, releasing token 0 is a
no-op with no library call, and releasing token 5 destroys exactly that
instance, which is no longer live. -/
theorem C7_release_contract_witness :
    (Java_com_bitchat_android_audio_OpusCodec_nativeReleaseEncoder heap1 0 = (heap1, []) ∧
     Java_com_bitchat_android_audio_OpusCodec_nativeReleaseDecoder heap1 0 = (heap1, [])) ∧
    Java_com_bitchat_android_audio_OpusCodec_nativeReleaseEncoder heap1 5 =
      (heapFree heap1 5, [LibCall.destroyEncoderCall 5]) ∧
    Java_com_bitchat_android_audio_OpusCodec_nativeReleaseDecoder heap1 5 =
      (heapFree heap1 5, [LibCall.destroyDecoderCall 5]) ∧
    (5 : Int) ∉ (heapFree heap1 5).live :=
  ⟨(C7_release_contract heap1 5).1,
   ((C7_release_contract heap1 5).2 (by decide)).1,
   ((C7_release_contract heap1 5).2 (by decide)).2.1,
   ((C7_release_contract heap1 5).2 (by decide)).2.2 (by decide)⟩

/-- C9: from a well-formed heap, a successful initEncoder followed by a
successful initDecoder (same parameters) return nonzero, pairwise distinct
tokens; both are live afterwards, the live-token list has no duplicates
(every live token is unique), and the heap stays well-formed. -/
theorem C9_distinct_tokens (L : OpusCreate) (h : CodecHeap)
    (sr ch app br cx : Int) (vbr dtx : Bool) (hwf : heapWF h)
    (he : L.encCreate sr ch app = (OPUS_OK, true))
    (hd : L.decCreate sr ch = (OPUS_OK, true)) :
    (Java_com_bitchat_android_audio_OpusCodec_nativeInitEncoder L h sr ch app br cx vbr dtx).1 ≠ 0 ∧
    (Java_com_bitchat_android_audio_OpusCodec_nativeInitDecoder L
      (Java_com_bitchat_android_audio_OpusCodec_nativeInitEncoder L h sr ch app br cx vbr dtx).2.2
      sr ch).1 ≠ 0 ∧
    (Java_com_bitchat_android_audio_OpusCodec_nativeInitEncoder L h sr ch app br cx vbr dtx).1 ≠
      (Java_com_bitchat_android_audio_OpusCodec_nativeInitDecoder L
        (Java_com_bitchat_android_audio_OpusCodec_nativeInitEncoder L h sr ch app br cx vbr dtx).2.2
        sr ch).1 ∧
    (Java_com_bitchat_android_audio_OpusCodec_nativeInitDecoder L
      (Java_com_bitchat_android_audio_OpusCodec_nativeInitEncoder L h sr ch app br cx vbr dtx).2.2
      sr ch).2.2.live.Nodup ∧
    heapWF (Java_com_bitchat_android_audio_OpusCodec_nativeInitDecoder L
      (Java_com_bitchat_android_audio_OpusCodec_nativeInitEncoder L h sr ch app br cx vbr dtx).2.2
      sr ch).2.2 := by
  obtain ⟨hpos, hlt, hnd⟩ := hwf
  have hA : h.next ∉ h.live := fun hm => absurd (hlt _ hm) (lt_irrefl _)
  have hB : h.next + 1 ∉ h.live := fun hm => by have := hlt _ hm; omega
  have hc1 : ¬((L.encCreate sr ch app).1 ≠ OPUS_OK ∨ (L.encCreate sr ch app).2 = false) := by
    rw [he]
    simp
  have hc2 : ¬((L.decCreate sr ch).1 ≠ OPUS_OK ∨ (L.decCreate sr ch).2 = false) := by
    rw [hd]
    simp
  unfold Java_com_bitchat_android_audio_OpusCodec_nativeInitEncoder
    Java_com_bitchat_android_audio_OpusCodec_nativeInitDecoder
  dsimp only
  rw [if_neg hc1]
  dsimp only [heapAlloc]
  rw [if_neg hc2]
  dsimp only
  refine ⟨by omega, by omega, by omega, ?_, ?_⟩
  · simp only [List.nodup_cons, List.mem_cons]
    refine ⟨?_, ?_, hnd⟩
    · push_neg
      exact ⟨by omega, hB⟩
    · exact hA
  · refine ⟨?_, ?_, ?_⟩
    · dsimp only
      omega
    · intro p hp
      dsimp only at hp ⊢
      simp only [List.mem_cons] at hp
      rcases hp with rfl | rfl | hp
      · omega
      · omega
      · have := hlt _ hp
        omega
    · dsimp only
      simp only [List.nodup_cons, List.mem_cons]
      refine ⟨?_, ?_, hnd⟩
      · push_neg
        exact ⟨by omega, hB⟩
      · exact hA

/-- C9 witness: starting from the empty heap with the 48000-accepting
creation model, the encoder gets token 1 and the decoder token 2: both
nonzero, distinct, the live list duplicate-free, the heap well-formed. -/
theorem C9_distinct_tokens_witness :
    (Java_com_bitchat_android_audio_OpusCodec_nativeInitEncoder createAt48k heap0 48000 1 2049 16000 5 false true).1 ≠ 0 ∧
    (Java_com_bitchat_android_audio_OpusCodec_nativeInitDecoder createAt48k
      (Java_com_bitchat_android_audio_OpusCodec_nativeInitEncoder createAt48k heap0 48000 1 2049 16000 5 false true).2.2
      48000 1).1 ≠ 0 ∧
    (Java_com_bitchat_android_audio_OpusCodec_nativeInitEncoder createAt48k heap0 48000 1 2049 16000 5 false true).1 ≠
      (Java_com_bitchat_android_audio_OpusCodec_nativeInitDecoder createAt48k
        (Java_com_bitchat_android_audio_OpusCodec_nativeInitEncoder createAt48k heap0 48000 1 2049 16000 5 false true).2.2
        48000 1).1 ∧
    (Java_com_bitchat_android_audio_OpusCodec_nativeInitDecoder createAt48k
      (Java_com_bitchat_android_audio_OpusCodec_nativeInitEncoder createAt48k heap0 48000 1 2049 16000 5 false true).2.2
      48000 1).2.2.live.Nodup ∧
    heapWF (Java_com_bitchat_android_audio_OpusCodec_nativeInitDecoder createAt48k
      (Java_com_bitchat_android_audio_OpusCodec_nativeInitEncoder createAt48k heap0 48000 1 2049 16000 5 false true).2.2
      48000 1).2.2 :=
  C9_distinct_tokens createAt48k heap0 48000 1 2049 16000 5 false true
    heap0_wf (by decide) (by decide)

theorem libMono_wbDec : WellBehavedDec 1 libMono := by
  intro h d fs fec hs
  by_cases hneg : fs < 0
  · simp [libMono, hneg] at hs
  · constructor
    · simp [libMono, hneg]
    · simp [libMono, hneg]

theorem libStereo_wbDec : WellBehavedDec 2 libStereo := by
  intro h d fs fec hs
  by_cases hneg : fs < 0
  · simp [libStereo, hneg] at hs
  · constructor
    · simp [libStereo, hneg]
    · simp [libStereo, hneg]

/-- C6: on a nonzero token, if the library reports a nonnegative byte count
the encode result is present with exactly that many bytes, and if the library
reports a negative byte count the result is absent (no partial output). -/
theorem C6_encode_exact_bytes (lib : OpusLib) (tok : Int) (pcm : List Nat)
    (fs : Int) (hne : tok ≠ 0) :
    (0 ≤ (lib.encode tok (bytesToShorts pcm) fs max_encoded_size).1 →
      ∃ bs, (Java_com_bitchat_android_audio_OpusCodec_nativeEncode lib tok pcm fs).result = some bs ∧
        bs.length = (lib.encode tok (bytesToShorts pcm) fs max_encoded_size).1.toNat) ∧
    ((lib.encode tok (bytesToShorts pcm) fs max_encoded_size).1 < 0 →
      (Java_com_bitchat_android_audio_OpusCodec_nativeEncode lib tok pcm fs).result = none) := by
  unfold Java_com_bitchat_android_audio_OpusCodec_nativeEncode
  rw [if_neg hne]
  dsimp only
  constructor
  · intro hs
    rw [if_neg (not_lt.mpr hs)]
    exact ⟨_, rfl, bufferRead_length _ _ _⟩
  · intro hs
    rw [if_pos hs]

/-- C6 witness: the constant-packet library yields a 10-byte result, and the
always-failing library yields an absent result. -/
theorem C6_encode_exact_bytes_witness :
    (∃ bs, (Java_com_bitchat_android_audio_OpusCodec_nativeEncode libMono 5 [0, 0] 1).result = some bs ∧
      bs.length = (libMono.encode 5 (bytesToShorts [0, 0]) 1 max_encoded_size).1.toNat) ∧
    (Java_com_bitchat_android_audio_OpusCodec_nativeEncode libReject 5 [0, 0] 1).result = none :=
  ⟨(C6_encode_exact_bytes libMono 5 [0, 0] 1 (by decide)).1 (by decide),
   (C6_encode_exact_bytes libReject 5 [0, 0] 1 (by decide)).2 (by decide)⟩

/-- C1 (amended): encoding an all-zero PCM frame of F samples (per channel)
and decoding the resulting packet with the same frame size F yields a PCM
buffer of exactly `F * 2` bytes: the code converts the library-reported
PER-CHANNEL sample count to bytes at 2 bytes per sample and returns exactly
that many bytes, so the byte count equals `F * channels * 2` only when
`channels = 1`. -/
theorem C1_silent_roundtrip_bytes (lib : OpusLib) (encTok decTok F : Int)
    (ch : Nat) (packet : List Nat)
    (hdec : decTok ≠ 0) (hF : 0 ≤ F)
    (henc : (Java_com_bitchat_android_audio_OpusCodec_nativeEncode lib encTok
        (List.replicate (F.toNat * ch * 2) 0) F).result = some packet)
    (hst : (lib.decode decTok packet F 0).1 = F) :
    ∃ bs, (Java_com_bitchat_android_audio_OpusCodec_nativeDecode lib decTok packet F).result = some bs ∧
      bs.length = F.toNat * 2 := by
  unfold Java_com_bitchat_android_audio_OpusCodec_nativeDecode
  rw [if_neg hdec]
  dsimp only
  rw [hst]
  rw [if_neg (not_lt.mpr hF)]
  refine ⟨_, rfl, ?_⟩
  rw [shortsToBytes_length, bufferRead_length]
  omega

/-- C1 witness: mono round trip at F = 160 (320 input bytes of silence),
yielding exactly 320 = 160 x 2 output bytes. -/
theorem C1_silent_roundtrip_bytes_witness :
    ∃ bs, (Java_com_bitchat_android_audio_OpusCodec_nativeDecode libMono 5
        (List.replicate 10 7) 160).result = some bs ∧
      bs.length = (160 : Int).toNat * 2 :=
  C1_silent_roundtrip_bytes libMono 1 5 160 1 (List.replicate 10 7)
    (by norm_num) (by norm_num)
    (by simp [Java_com_bitchat_android_audio_OpusCodec_nativeEncode, libMono, bufferRead])
    (by norm_num [libMono])

/-- C1 counterexample: with a 2-channel library obeying the documented decode
contract (`WellBehavedDec 2`: sample count reported per channel, twice that
many int16 slots written), encoding a silent 160-sample stereo frame
(640 = 160 x 2 x 2 bytes) and decoding with the same frame size 160 returns a
buffer of 320 bytes, not `160 x 2 x 2 = 640`: the code multiplies the
per-channel `decoded_samples` by 2 without the channel factor
(opus_jni.cpp line 174). -/
theorem shortsToBytes_replicate_zero (n : Nat) :
    shortsToBytes (List.replicate n 0) = List.replicate (2 * n) 0 := by
  induction n with
  | zero => rfl
  | succ k ih =>
    have h2 : 2 * (k + 1) = 2 * k + 1 + 1 := by ring
    rw [List.replicate_succ, h2, List.replicate_succ, List.replicate_succ]
    simp [shortsToBytes, int16ToBytes, ih]

theorem C1_stereo_counterexample :
    WellBehavedDec 2 libStereo ∧
    (Java_com_bitchat_android_audio_OpusCodec_nativeEncode libStereo 1
      (List.replicate 640 0) 160).result = some (List.replicate 10 7) ∧
    (libStereo.decode 5 (List.replicate 10 7) 160 0).1 = 160 ∧
    (Java_com_bitchat_android_audio_OpusCodec_nativeDecode libStereo 5
      (List.replicate 10 7) 160).result = some (List.replicate 320 0) ∧
    (List.replicate 320 (0 : Nat)).length ≠ 160 * 2 * 2 := by
  refine ⟨libStereo_wbDec, ?_, by norm_num [libStereo], ?_, by simp⟩
  · simp [Java_com_bitchat_android_audio_OpusCodec_nativeEncode, libStereo, bufferRead]
  · have h5 : (5 : Int) ≠ 0 := by norm_num
    have hlib : libStereo.decode 5 (List.replicate 10 7) 160 0 =
        (160, List.replicate ((160 : Int).toNat * 2) 0) := by
      show (if (160 : Int) < 0 then ((-1 : Int), ([] : List Int))
        else ((160 : Int), List.replicate ((160 : Int).toNat * 2) 0)) = _
      rw [if_neg (by norm_num : ¬(160 : Int) < 0)]
    unfold Java_com_bitchat_android_audio_OpusCodec_nativeDecode
    rw [if_neg h5]
    dsimp only
    rw [hlib]
    dsimp only
    rw [if_neg (by norm_num : ¬(160 : Int) < 0)]
    dsimp only
    have ht : ((160 : Int)).toNat = 160 := rfl
    have hbr : bufferRead 0 (List.replicate ((160 : Int).toNat * 2) 0) (160 : Int).toNat =
        List.replicate 160 (0 : Int) := by
      rw [ht]
      unfold bufferRead
      rw [List.take_replicate, List.length_replicate]
      norm_num
    rw [hbr, shortsToBytes_replicate_zero]

/-- C3 (code evaluated at the failing input): encode forwards the constant
scratch capacity `max_encoded_size` as its output bound, but a decode call
with caller frame size 2048 on a nonzero token forwards 2048 — the caller
frame size, not the 1024-slot scratch capacity `max_frame_size` — as the
bound (opus_jni.cpp line 159).  With a mono library obeying the documented
bound contract (`WellBehavedDec 1`: output limited to the frame-size bound it
is passed), the library then writes 2048 int16 slots into the 1024-slot
scratch buffer: the bound this layer passes does not keep the library output
within the scratch capacity. -/
theorem C3_decode_bound_exceeds_capacity :
    WellBehavedDec 1 libMono ∧
    (Java_com_bitchat_android_audio_OpusCodec_nativeEncode libMono 5
      (List.replicate 4 0) 2048).calls =
      [LibCall.encodeCall 5 (bytesToShorts (List.replicate 4 0)) 2048 max_encoded_size] ∧
    (Java_com_bitchat_android_audio_OpusCodec_nativeDecode libMono 5
      (List.replicate 4 0) 2048).calls =
      [LibCall.decodeCall 5 (List.replicate 4 0) 2048 0] ∧
    (Java_com_bitchat_android_audio_OpusCodec_nativeDecode libMono 5
      (List.replicate 4 0) 2048).scratchWritten = 2048 ∧
    max_frame_size < 2048 := by
  have h5 : (5 : Int) ≠ 0 := by norm_num
  have hlib : libMono.decode 5 (List.replicate 4 0) 2048 0 =
      (2048, List.replicate (2048 : Int).toNat 0) := by
    show (if (2048 : Int) < 0 then ((-1 : Int), ([] : List Int))
      else ((2048 : Int), List.replicate (2048 : Int).toNat 0)) = _
    rw [if_neg (by norm_num : ¬(2048 : Int) < 0)]
  refine ⟨libMono_wbDec, ?_, ?_, ?_, by norm_num [max_frame_size]⟩
  · have hlibe : libMono.encode 5 (bytesToShorts (List.replicate 4 0)) 2048 max_encoded_size =
        (10, List.replicate 10 7) := rfl
    unfold Java_com_bitchat_android_audio_OpusCodec_nativeEncode
    rw [if_neg h5]
    dsimp only
    rw [hlibe]
    dsimp only
    rw [if_neg (by norm_num : ¬(10 : Int) < 0)]
  · unfold Java_com_bitchat_android_audio_OpusCodec_nativeDecode
    rw [if_neg h5]
    dsimp only
    rw [hlib]
    dsimp only
    rw [if_neg (by norm_num : ¬(2048 : Int) < 0)]
  · unfold Java_com_bitchat_android_audio_OpusCodec_nativeDecode
    rw [if_neg h5]
    dsimp only
    rw [hlib]
    dsimp only
    rw [if_neg (by norm_num : ¬(2048 : Int) < 0)]
    dsimp only
    rw [List.length_replicate]
    rfl
